import Mathlib

/-!
Shallow embedding of the AI provider orchestration system
(`ai_provider_orchestrator.py`, `web_interface.py`) and proofs about its
session lifecycle, provider dispatch and the compare fan-out.

External effects (subprocess spawning, HTTP round trips, the clock) are
passed in explicitly as oracle values; every state-mutating Python method
becomes a function returning the updated record.
-/

set_option autoImplicit false

/-! ## Python dict operations

The orchestrator keeps `self.providers` and `self.sessions` as Python
dicts.  We model a dict as an association list with unique keys kept in
insertion order; `dictInsert` overwrites in place or appends, matching
`d[k] = v`, and `dictErase` matches `del d[k]`. -/

def dictFind {α : Type} (d : List (String × α)) (k : String) : Option α :=
  match d with
  | [] => none
  | (k', v) :: rest => if k' = k then some v else dictFind rest k

def dictInsert {α : Type} (d : List (String × α)) (k : String) (v : α) :
    List (String × α) :=
  match d with
  | [] => [(k, v)]
  | (k', v') :: rest =>
      if k' = k then (k, v) :: rest else (k', v') :: dictInsert rest k v

def dictErase {α : Type} (d : List (String × α)) (k : String) :
    List (String × α) :=
  match d with
  | [] => []
  | (k', v') :: rest => if k' = k then rest else (k', v') :: dictErase rest k

/-! ## Data model -/

/-- `ProviderType`: supported AI provider types. -/
inductive ProviderType
  | gemini_cli
  | qwen_code
  | ollama
  | github_copilot
  | openai_compatible
  | custom
deriving DecidableEq

/-- `SessionStatus`: AI session status states. -/
inductive SessionStatus
  | inactive
  | starting
  | active
  | error
  | terminating
deriving DecidableEq

/-- Python truthiness of an optional string field: `None` and the empty
string are both falsy (`if not self.config.api_endpoint: ...`). -/
def truthy : Option String → Bool
  | none => false
  | some s => !s.isEmpty

/-- How Python renders an optional string inside an f-string:
`None` prints as `"None"`. -/
def pyStr : Option String → String
  | none => "None"
  | some s => s

/-- `ProviderConfig`: configuration for an AI provider.  A plain dataclass:
every field beyond `name` and `provider_type` is optional or defaulted and
no validation runs at construction.  The `temperature` float is carried as
an exact rational; no arithmetic is ever performed on it. -/
structure ProviderConfig where
  name : String
  provider_type : ProviderType
  command : Option String := none
  api_endpoint : Option String := none
  api_key : Option String := none
  model : Option String := none
  max_tokens : Option Nat := none
  temperature : Option Rat := none
  timeout : Nat := 30
  env_vars : List (String × String) := []
  additional_args : List String := []
deriving DecidableEq

/-- Handle to a spawned subprocess (`subprocess.Popen`); the OS process
behind it is external to the model. -/
structure Popen where
  pid : Nat
deriving DecidableEq

/-- One entry of a session's `conversation_history`:
`{"role": ..., "content": ..., "timestamp": ...}`. -/
structure HistoryEntry where
  role : String
  content : String
  timestamp : Nat
deriving DecidableEq

/-- `AISession`: represents an active AI session.  `created_at` and
`last_activity` take the clock reading (`time.time()`) at construction. -/
structure AISession where
  session_id : String
  provider_config : ProviderConfig
  status : SessionStatus
  process : Option Popen := none
  created_at : Nat
  last_activity : Nat
  conversation_history : List HistoryEntry := []
deriving DecidableEq

/-! ## Error taxonomy

Python signals failures by raising; we return them.  The constructors
name the exceptions raised by the source. -/

/-- Errors raised by a provider's `send_message`. -/
inductive SendError
  /-- `RuntimeError("Session is not active")`. -/
  | sessionNotActive
  /-- `TimeoutError("AI response timeout")` / an aiohttp timeout. -/
  | timeout
  /-- any other transport failure, e.g. `RuntimeError("HTTP {status}: ...")`
  or `RuntimeError("API endpoint not configured")`. -/
  | transportError (msg : String)
deriving DecidableEq

/-- Errors raised by the orchestrator's public operations. -/
inductive OrchError
  /-- `ValueError("Provider not found: ...")`. -/
  | unknownProvider (name : String)
  /-- `RuntimeError("Provider not available: ...")`. -/
  | providerUnavailable (name : String)
  /-- an error raised inside a provider's `start_session`. -/
  | providerStartFailed (msg : String)
  /-- `ValueError("Session not found: ...")`. -/
  | unknownSession (session_id : String)
  /-- an error raised inside a provider's `send_message`. -/
  | sendError (e : SendError)
deriving DecidableEq

/-! ## External-world outcomes

Each transport interaction is decided by the environment; the oracle
values below record what the world did during one call. -/

/-- Result of `subprocess.Popen(...)`: a process, or a raised exception. -/
inductive SpawnResult
  | ok (process : Popen)
  | failure (msg : String)
deriving DecidableEq

/-- One line-oriented round trip on a subprocess transport: a (stripped)
reply line arrives before the configured timeout, the timeout fires first
(`asyncio.TimeoutError`), or the write/read raises some other exception. -/
inductive TransportOutcome
  | reply (text : String)
  | timedOut
  | failed (msg : String)
deriving DecidableEq

/-- One HTTP round trip: a 200 response (its JSON body collapsed to the
extracted reply text), a non-200 status with body, the client timeout, or
some other raised exception. -/
inductive HttpOutcome
  | ok (response_text : String)
  | httpError (status : Nat) (body : String)
  | timedOut
  | failed (msg : String)
deriving DecidableEq

/-! ## GeminiCLIProvider -/

/-- `GeminiCLIProvider.start_session`: builds a session in `STARTING`
status, attempts to spawn the configured command, and on success attaches
the process and marks the session `ACTIVE`; if `Popen` raises, the session
is marked `ERROR` and still returned (the exception is swallowed).
`sid` stands for the generated uuid and `now` for `time.time()`. -/
def GeminiCLIProvider.start_session (config : ProviderConfig) (sid : String)
    (now : Nat) (spawn : SpawnResult) : AISession :=
  let session : AISession :=
    { session_id := sid, provider_config := config,
      status := SessionStatus.starting, process := none,
      created_at := now, last_activity := now, conversation_history := [] }
  match spawn with
  | SpawnResult.ok process =>
      { session with process := some process, status := SessionStatus.active }
  | SpawnResult.failure _ =>
      { session with status := SessionStatus.error }

/-- `GeminiCLIProvider.send_message`: rejects a session without a process
or not in `ACTIVE` status; otherwise writes the message line (an external
effect) and awaits one reply line under the configured timeout.  On a
reply it sets `last_activity` and appends the user and assistant turns;
`t1 t2 t3` are the three successive `time.time()` readings.  On timeout or
any other failure it raises, leaving the session untouched. -/
def GeminiCLIProvider.send_message (session : AISession) (message : String)
    (outcome : TransportOutcome) (t1 t2 t3 : Nat) :
    Except SendError String × AISession :=
  if session.process = none ∨ session.status ≠ SessionStatus.active then
    (Except.error SendError.sessionNotActive, session)
  else
    match outcome with
    | TransportOutcome.reply response =>
        (Except.ok response,
         { session with
             last_activity := t1,
             conversation_history := session.conversation_history ++
               [{ role := "user", content := message, timestamp := t2 },
                { role := "assistant", content := response, timestamp := t3 }] })
    | TransportOutcome.timedOut => (Except.error SendError.timeout, session)
    | TransportOutcome.failed msg =>
        (Except.error (SendError.transportError msg), session)

/-- `GeminiCLIProvider.stop_session`: with no process attached it returns
`False` at once; otherwise it terminates (escalating to kill — both acting
only on the external process), marks the session `INACTIVE` and returns
`True`, unless terminate/kill raises (`terminateRaises`), in which case it
returns `False` with the session unchanged. -/
def GeminiCLIProvider.stop_session (session : AISession)
    (terminateRaises : Bool) : Bool × AISession :=
  match session.process with
  | none => (false, session)
  | some _ =>
      if terminateRaises then (false, session)
      else (true, { session with status := SessionStatus.inactive })

/-! ## GitHubCopilotProvider (same subprocess transport as Gemini CLI,
with a fixed `copilot explain` command line) -/

/-- `GitHubCopilotProvider.start_session`: identical control flow to the
Gemini CLI variant (spawn, attach, `ACTIVE`; on a raise, `ERROR` returned). -/
def GitHubCopilotProvider.start_session (config : ProviderConfig)
    (sid : String) (now : Nat) (spawn : SpawnResult) : AISession :=
  let session : AISession :=
    { session_id := sid, provider_config := config,
      status := SessionStatus.starting, process := none,
      created_at := now, last_activity := now, conversation_history := [] }
  match spawn with
  | SpawnResult.ok process =>
      { session with process := some process, status := SessionStatus.active }
  | SpawnResult.failure _ =>
      { session with status := SessionStatus.error }

/-- `GitHubCopilotProvider.send_message`: identical control flow to the
Gemini CLI variant. -/
def GitHubCopilotProvider.send_message (session : AISession)
    (message : String) (outcome : TransportOutcome) (t1 t2 t3 : Nat) :
    Except SendError String × AISession :=
  if session.process = none ∨ session.status ≠ SessionStatus.active then
    (Except.error SendError.sessionNotActive, session)
  else
    match outcome with
    | TransportOutcome.reply response =>
        (Except.ok response,
         { session with
             last_activity := t1,
             conversation_history := session.conversation_history ++
               [{ role := "user", content := message, timestamp := t2 },
                { role := "assistant", content := response, timestamp := t3 }] })
    | TransportOutcome.timedOut => (Except.error SendError.timeout, session)
    | TransportOutcome.failed msg =>
        (Except.error (SendError.transportError msg), session)

/-- `GitHubCopilotProvider.stop_session`: identical control flow to the
Gemini CLI variant. -/
def GitHubCopilotProvider.stop_session (session : AISession)
    (terminateRaises : Bool) : Bool × AISession :=
  match session.process with
  | none => (false, session)
  | some _ =>
      if terminateRaises then (false, session)
      else (true, { session with status := SessionStatus.inactive })

/-! ## OllamaProvider -/

/-- `OllamaProvider._check_model`: returns `False` when the endpoint or
the model is unset (Python truthiness), when the `GET /api/tags` request
fails or returns non-200 (`tags = none`), or when the configured model is
not among the reported model names. -/
def OllamaProvider.check_model (config : ProviderConfig)
    (tags : Option (List String)) : Bool :=
  if truthy config.api_endpoint && truthy config.model then
    match tags, config.model with
    | some models, some m => models.contains m
    | _, _ => false
  else false

/-- `OllamaProvider.start_session`: builds the session directly in
`ACTIVE` status (HTTP transport, no persistent process), then verifies the
model against the daemon's catalog; on a failed check it raises
`RuntimeError(f"Model {model} not available")` instead of returning. -/
def OllamaProvider.start_session (config : ProviderConfig) (sid : String)
    (now : Nat) (tags : Option (List String)) : Except String AISession :=
  let session : AISession :=
    { session_id := sid, provider_config := config,
      status := SessionStatus.active, process := none,
      created_at := now, last_activity := now, conversation_history := [] }
  if OllamaProvider.check_model config tags then Except.ok session
  else Except.error ("Model " ++ pyStr config.model ++ " not available")

/-- `OllamaProvider.send_message`: raises when no endpoint is configured;
otherwise performs one `POST /api/generate` round trip.  There is no
session-status check.  On a 200 response it sets `last_activity` and
appends the two turns (`t1 t2 t3` the successive `time.time()` readings);
a non-200 status raises `RuntimeError(f"HTTP {status}: {body}")`. -/
def OllamaProvider.send_message (config : ProviderConfig)
    (session : AISession) (message : String) (outcome : HttpOutcome)
    (t1 t2 t3 : Nat) : Except SendError String × AISession :=
  if truthy config.api_endpoint then
    match outcome with
    | HttpOutcome.ok response_text =>
        (Except.ok response_text,
         { session with
             last_activity := t1,
             conversation_history := session.conversation_history ++
               [{ role := "user", content := message, timestamp := t2 },
                { role := "assistant", content := response_text,
                  timestamp := t3 }] })
    | HttpOutcome.httpError status body =>
        (Except.error (SendError.transportError
           ("HTTP " ++ toString status ++ ": " ++ body)), session)
    | HttpOutcome.timedOut => (Except.error SendError.timeout, session)
    | HttpOutcome.failed msg =>
        (Except.error (SendError.transportError msg), session)
  else
    (Except.error (SendError.transportError "API endpoint not configured"),
     session)

/-- `OllamaProvider.stop_session`: no persistent resource; marks the
session `INACTIVE` and returns `True` unconditionally. -/
def OllamaProvider.stop_session (session : AISession) : Bool × AISession :=
  (true, { session with status := SessionStatus.inactive })

/-! ## OpenAICompatibleProvider -/

/-- `OpenAICompatibleProvider._check_connectivity`: `False` when no
endpoint is configured, when `GET /models` fails (`modelsStatus = none`),
or when it answers with a non-200 status. -/
def OpenAICompatibleProvider.check_connectivity (config : ProviderConfig)
    (modelsStatus : Option Nat) : Bool :=
  if truthy config.api_endpoint then
    match modelsStatus with
    | some status => status == 200
    | none => false
  else false

/-- `OpenAICompatibleProvider.start_session`: builds the session in
`ACTIVE` status, then verifies connectivity; on failure it raises
`RuntimeError("API endpoint not reachable")`. -/
def OpenAICompatibleProvider.start_session (config : ProviderConfig)
    (sid : String) (now : Nat) (modelsStatus : Option Nat) :
    Except String AISession :=
  let session : AISession :=
    { session_id := sid, provider_config := config,
      status := SessionStatus.active, process := none,
      created_at := now, last_activity := now, conversation_history := [] }
  if OpenAICompatibleProvider.check_connectivity config modelsStatus then
    Except.ok session
  else Except.error "API endpoint not reachable"

/-- `OpenAICompatibleProvider.send_message`: like the Ollama variant
(endpoint check, one `POST /chat/completions` round trip, no status
check); the bearer header attached when `api_key` is set is an external
effect with no bearing on the session record. -/
def OpenAICompatibleProvider.send_message (config : ProviderConfig)
    (session : AISession) (message : String) (outcome : HttpOutcome)
    (t1 t2 t3 : Nat) : Except SendError String × AISession :=
  if truthy config.api_endpoint then
    match outcome with
    | HttpOutcome.ok response_text =>
        (Except.ok response_text,
         { session with
             last_activity := t1,
             conversation_history := session.conversation_history ++
               [{ role := "user", content := message, timestamp := t2 },
                { role := "assistant", content := response_text,
                  timestamp := t3 }] })
    | HttpOutcome.httpError status body =>
        (Except.error (SendError.transportError
           ("HTTP " ++ toString status ++ ": " ++ body)), session)
    | HttpOutcome.timedOut => (Except.error SendError.timeout, session)
    | HttpOutcome.failed msg =>
        (Except.error (SendError.transportError msg), session)
  else
    (Except.error (SendError.transportError "API endpoint not configured"),
     session)

/-- `OpenAICompatibleProvider.stop_session`: marks `INACTIVE`, returns
`True` unconditionally. -/
def OpenAICompatibleProvider.stop_session (session : AISession) :
    Bool × AISession :=
  (true, { session with status := SessionStatus.inactive })

/-! ## Provider dispatch and the orchestrator -/

/-- A provider instance, as created by `_create_provider`: one of the four
supported classes, each wrapping its config (the `QWEN_CODE` and `CUSTOM`
types have no class and raise at creation). -/
inductive AIProvider
  | geminiCLI (config : ProviderConfig)
  | ollama (config : ProviderConfig)
  | githubCopilot (config : ProviderConfig)
  | openAICompatible (config : ProviderConfig)
deriving DecidableEq

/-- The config a provider instance wraps (`self.config`). -/
def AIProvider.config : AIProvider → ProviderConfig
  | AIProvider.geminiCLI c => c
  | AIProvider.ollama c => c
  | AIProvider.githubCopilot c => c
  | AIProvider.openAICompatible c => c

/-- `AIProviderOrchestrator._create_provider`: dispatch on
`config.provider_type`; unsupported types raise `ValueError`. -/
def create_provider (config : ProviderConfig) : Except String AIProvider :=
  match config.provider_type with
  | ProviderType.gemini_cli => Except.ok (AIProvider.geminiCLI config)
  | ProviderType.ollama => Except.ok (AIProvider.ollama config)
  | ProviderType.github_copilot => Except.ok (AIProvider.githubCopilot config)
  | ProviderType.openai_compatible =>
      Except.ok (AIProvider.openAICompatible config)
  | _ => Except.error "Unsupported provider type"

/-- What the external world did during one `start_session` call:
the `is_available()` probe result, the spawn attempt (subprocess
variants), the `/api/tags` model names (Ollama; `none` when the request
failed or answered non-200), and the `GET /models` status
(OpenAI-compatible; `none` when the request raised). -/
structure StartEnv where
  available : Bool
  spawn : SpawnResult
  tags : Option (List String)
  modelsStatus : Option Nat
deriving DecidableEq

/-- Provider-level `start_session`, dispatched on the variant.  The
subprocess variants never raise — a failed spawn is swallowed and the
session comes back in `ERROR` status; the HTTP variants raise on a failed
check. -/
def AIProvider.start_session (p : AIProvider) (sid : String) (now : Nat)
    (env : StartEnv) : Except String AISession :=
  match p with
  | AIProvider.geminiCLI config =>
      Except.ok (GeminiCLIProvider.start_session config sid now env.spawn)
  | AIProvider.githubCopilot config =>
      Except.ok (GitHubCopilotProvider.start_session config sid now env.spawn)
  | AIProvider.ollama config =>
      OllamaProvider.start_session config sid now env.tags
  | AIProvider.openAICompatible config =>
      OpenAICompatibleProvider.start_session config sid now env.modelsStatus

/-- What the external world did during one `send_message` call: the
subprocess round trip (CLI variants), the HTTP round trip (HTTP variants)
and the three successive `time.time()` readings. -/
structure SendEnv where
  cli : TransportOutcome
  http : HttpOutcome
  t1 : Nat
  t2 : Nat
  t3 : Nat
deriving DecidableEq

/-- Provider-level `send_message`, dispatched on the variant. -/
def AIProvider.send_message (p : AIProvider) (session : AISession)
    (message : String) (env : SendEnv) : Except SendError String × AISession :=
  match p with
  | AIProvider.geminiCLI _ =>
      GeminiCLIProvider.send_message session message env.cli env.t1 env.t2 env.t3
  | AIProvider.githubCopilot _ =>
      GitHubCopilotProvider.send_message session message env.cli env.t1 env.t2
        env.t3
  | AIProvider.ollama config =>
      OllamaProvider.send_message config session message env.http env.t1 env.t2
        env.t3
  | AIProvider.openAICompatible config =>
      OpenAICompatibleProvider.send_message config session message env.http
        env.t1 env.t2 env.t3

/-- Provider-level `stop_session`, dispatched on the variant;
`terminateRaises` is only consulted by the subprocess variants. -/
def AIProvider.stop_session (p : AIProvider) (session : AISession)
    (terminateRaises : Bool) : Bool × AISession :=
  match p with
  | AIProvider.geminiCLI _ =>
      GeminiCLIProvider.stop_session session terminateRaises
  | AIProvider.githubCopilot _ =>
      GitHubCopilotProvider.stop_session session terminateRaises
  | AIProvider.ollama _ => OllamaProvider.stop_session session
  | AIProvider.openAICompatible _ =>
      OpenAICompatibleProvider.stop_session session

/-- `AIProviderOrchestrator`: the provider registry (name → provider, as
loaded at startup) and the session registry (session id → session). -/
structure AIProviderOrchestrator where
  providers : List (String × AIProvider)
  sessions : List (String × AISession)
deriving DecidableEq

/-- `AIProviderOrchestrator.get_provider`: `self.providers.get(name)`. -/
def AIProviderOrchestrator.get_provider (o : AIProviderOrchestrator)
    (name : String) : Option AIProvider :=
  dictFind o.providers name

/-- `AIProviderOrchestrator.start_session`: raises `ValueError` for an
unregistered name, `RuntimeError` when `is_available()` is false; then
delegates to the provider, registers whatever session comes back under its
id, and returns the id. -/
def AIProviderOrchestrator.start_session (o : AIProviderOrchestrator)
    (provider_name : String) (sid : String) (now : Nat) (env : StartEnv) :
    Except OrchError (AIProviderOrchestrator × String) :=
  match o.get_provider provider_name with
  | none => Except.error (OrchError.unknownProvider provider_name)
  | some provider =>
      if env.available then
        match provider.start_session sid now env with
        | Except.error msg => Except.error (OrchError.providerStartFailed msg)
        | Except.ok session =>
            Except.ok
              ({ o with
                   sessions := dictInsert o.sessions session.session_id session },
               session.session_id)
      else Except.error (OrchError.providerUnavailable provider_name)

/-- `AIProviderOrchestrator.send_message`: raises `ValueError` for an
unknown session id or an unresolvable owning provider, otherwise delegates;
the session object is mutated in place, so the registry reflects the
updated session. -/
def AIProviderOrchestrator.send_message (o : AIProviderOrchestrator)
    (session_id : String) (message : String) (env : SendEnv) :
    Except OrchError String × AIProviderOrchestrator :=
  match dictFind o.sessions session_id with
  | none => (Except.error (OrchError.unknownSession session_id), o)
  | some session =>
      match o.get_provider session.provider_config.name with
      | none =>
          (Except.error (OrchError.unknownProvider session.provider_config.name),
           o)
      | some provider =>
          let result := provider.send_message session message env
          (result.1.mapError OrchError.sendError,
           { o with sessions := dictInsert o.sessions session_id result.2 })

/-- `AIProviderOrchestrator.stop_session`: returns `False` for an unknown
session id or an unresolvable owning provider; otherwise delegates and, on
provider-reported success, removes the session from the registry. -/
def AIProviderOrchestrator.stop_session (o : AIProviderOrchestrator)
    (session_id : String) (terminateRaises : Bool) :
    Bool × AIProviderOrchestrator :=
  match dictFind o.sessions session_id with
  | none => (false, o)
  | some session =>
      match o.get_provider session.provider_config.name with
      | none => (false, o)
      | some provider =>
          let result := provider.stop_session session terminateRaises
          if result.1 then
            (true, { o with sessions := dictErase o.sessions session_id })
          else
            (false,
             { o with sessions := dictInsert o.sessions session_id result.2 })

/-- `AIProviderOrchestrator.get_session_history` (registry view): raises
`ValueError` for an unknown id, otherwise returns the conversation log;
the copy-on-return aliasing behavior is modelled separately in `RefModel`. -/
def AIProviderOrchestrator.get_session_history (o : AIProviderOrchestrator)
    (session_id : String) : Except OrchError (List HistoryEntry) :=
  match dictFind o.sessions session_id with
  | none => Except.error (OrchError.unknownSession session_id)
  | some session => Except.ok session.conversation_history

/-! ## The compare fan-out (`web_interface.py`) -/

namespace WebInterface

/-- The outcomes of the three orchestrator calls one provider's compare
pipeline makes (`start_session`, `send_message`, `stop_session`), each
either a value or a raised exception rendered as `str(e)`.  The values
already reflect the message sent; `stop` returning `False` is a value,
not a raise. -/
structure PipelineRun where
  start : Except String String
  send : Except String String
  stop : Except String Bool

/-- `get_provider_response`: runs the three-step pipeline for one
provider; the first raised exception is captured as
`f"Error: {str(e)}"` in place of the reply. -/
def get_provider_response (runs : String → PipelineRun)
    (provider_name : String) : String × String :=
  match (runs provider_name).start with
  | Except.error e => (provider_name, "Error: " ++ e)
  | Except.ok _ =>
      match (runs provider_name).send with
      | Except.error e => (provider_name, "Error: " ++ e)
      | Except.ok reply =>
          match (runs provider_name).stop with
          | Except.error e => (provider_name, "Error: " ++ e)
          | Except.ok _ => (provider_name, reply)

/-- One slot of the compare result:
`{'response': ..., 'timestamp': time.time()}`. -/
structure CompareSlot where
  response : String
  timestamp : Nat
deriving DecidableEq

/-- The result-building loop of `compare_providers`: for each gathered
`(provider_name, response)` pair, in order, assign
`results[provider_name] = {'response': response, 'timestamp': clock i}`
where `clock i` is the clock reading at the i-th iteration. -/
def insertResults (clock : Nat → Nat) (i : Nat)
    (responses : List (String × String))
    (results : List (String × CompareSlot)) : List (String × CompareSlot) :=
  match responses with
  | [] => results
  | (name, response) :: rest =>
      insertResults clock (i + 1) rest
        (dictInsert results name { response := response, timestamp := clock i })

/-- `compare_providers`: fans the pipeline out over the requested provider
names (`asyncio.gather` keeps the input order) and collects the responses
into the results dict. -/
def compare_providers (runs : String → PipelineRun)
    (providers : List String) (clock : Nat → Nat) :
    List (String × CompareSlot) :=
  insertResults clock 0 (providers.map (get_provider_response runs)) []

end WebInterface

/-! ## Aliasing model of `get_session_history` (for the copy semantics)

Python lists are mutable objects; `conversation_history.copy()` allocates
a fresh list object with the same contents.  To state that mutating the
returned list does not touch the stored one, sessions here hold a
reference into an explicit store of list objects. -/

namespace RefModel

/-- The store of live Python list objects, addressed by position. -/
structure Heap where
  cells : List (List HistoryEntry)
deriving DecidableEq

/-- Dereference a list object (addresses are always in range when
allocated through `alloc`). -/
def Heap.get (h : Heap) (r : Nat) : List HistoryEntry :=
  h.cells.getD r []

/-- Overwrite the contents of one list object in place. -/
def Heap.set (h : Heap) (r : Nat) (v : List HistoryEntry) : Heap :=
  { cells := h.cells.set r v }

/-- Allocate a fresh list object (what `.copy()` does). -/
def Heap.alloc (h : Heap) (v : List HistoryEntry) : Heap × Nat :=
  ({ cells := h.cells ++ [v] }, h.cells.length)

/-- `list.append(entry)` performed through a reference. -/
def Heap.appendEntry (h : Heap) (r : Nat) (e : HistoryEntry) : Heap :=
  h.set r (h.get r ++ [e])

/-- `list.remove`/`del` of the last element, performed through a
reference. -/
def Heap.dropLast (h : Heap) (r : Nat) : Heap :=
  h.set r (h.get r).dropLast

/-- A registered session, its `conversation_history` field now a
reference into the store. -/
structure SessionRef where
  session_id : String
  historyRef : Nat
deriving DecidableEq

/-- The orchestrator state relevant to `get_session_history`: the session
registry plus the store of list objects. -/
structure Orchestrator where
  sessions : List (String × SessionRef)
  heap : Heap
deriving DecidableEq

/-- `AIProviderOrchestrator.get_session_history`: raises `ValueError` for
an unknown id; otherwise returns `session.conversation_history.copy()` —
a freshly allocated list object with the stored contents. -/
def get_session_history (o : Orchestrator) (session_id : String) :
    Except OrchError (Orchestrator × Nat) :=
  match dictFind o.sessions session_id with
  | none => Except.error (OrchError.unknownSession session_id)
  | some session =>
      let allocated := o.heap.alloc (o.heap.get session.historyRef)
      Except.ok ({ o with heap := allocated.1 }, allocated.2)

end RefModel

/-! ## The spine of the compare result

With pairwise-distinct provider names every `dictInsert` of the result
loop appends, so the loop produces this list; `slots` names it for the
proofs below. -/

def WebInterface.slots (clock : Nat → Nat) :
    Nat → List (String × String) → List (String × WebInterface.CompareSlot)
  | _, [] => []
  | i, (name, response) :: rest =>
      (name, { response := response, timestamp := clock i }) ::
        WebInterface.slots clock (i + 1) rest

/-! ## Concrete fixtures

Closed configurations, sessions and environments, used to instantiate the
theorems below on concrete inputs. -/

def geminiConfig0 : ProviderConfig :=
  { name := "gemini", provider_type := ProviderType.gemini_cli,
    command := some "gemini" }

def ollamaConfig0 : ProviderConfig :=
  { name := "ollama", provider_type := ProviderType.ollama,
    api_endpoint := some "http://localhost:11434", model := some "llama2" }

def ollamaConfigNoModel : ProviderConfig :=
  { name := "ollama", provider_type := ProviderType.ollama,
    api_endpoint := some "http://localhost:11434" }

/-- The invalid configuration from the repo's own
`test_configuration_validation` ("missing-required": a gemini-cli entry
with no command). -/
def missingRequiredConfig : ProviderConfig :=
  { name := "missing-required", provider_type := ProviderType.gemini_cli }

def orch0 : AIProviderOrchestrator :=
  { providers := [("gemini", AIProvider.geminiCLI geminiConfig0)],
    sessions := [] }

def envSpawnFail : StartEnv :=
  { available := true, spawn := SpawnResult.failure "spawn failed",
    tags := none, modelsStatus := none }

def envSpawnOk : StartEnv :=
  { available := true, spawn := SpawnResult.ok { pid := 7 },
    tags := none, modelsStatus := none }

def envUnavailable : StartEnv :=
  { available := false, spawn := SpawnResult.failure "unreachable",
    tags := none, modelsStatus := none }

/-- The session the gemini-cli provider returns after a failed spawn. -/
def sessError0 : AISession :=
  { session_id := "sid-1", provider_config := geminiConfig0,
    status := SessionStatus.error, process := none,
    created_at := 0, last_activity := 0, conversation_history := [] }

/-- The session the gemini-cli provider returns after a successful spawn. -/
def sessActive0 : AISession :=
  { session_id := "sid-1", provider_config := geminiConfig0,
    status := SessionStatus.active, process := some { pid := 7 },
    created_at := 0, last_activity := 0, conversation_history := [] }

/-- An already-stopped Ollama session. -/
def sessInactive0 : AISession :=
  { session_id := "sid-2", provider_config := ollamaConfig0,
    status := SessionStatus.inactive, process := none,
    created_at := 0, last_activity := 0, conversation_history := [] }

/-- `orch0` right after registering the failed-spawn session. -/
def orchErr1 : AIProviderOrchestrator :=
  { providers := orch0.providers, sessions := [("sid-1", sessError0)] }

/-- `orch0` right after registering the successfully started session. -/
def orchAct1 : AIProviderOrchestrator :=
  { providers := orch0.providers, sessions := [("sid-1", sessActive0)] }

/-- A concrete compare fan-out world in which provider p2's probe fails
and the others answer. -/
def runs0 : String → WebInterface.PipelineRun := fun name =>
  if name = "p2" then
    { start := Except.error "Provider not available: p2",
      send := Except.error "Session not found", stop := Except.ok false }
  else
    { start := Except.ok "sid", send := Except.ok ("reply from " ++ name),
      stop := Except.ok true }

/-- A one-session state for the aliasing model. -/
def rSess0 : RefModel.SessionRef := { session_id := "sid-1", historyRef := 0 }

def rOrch0 : RefModel.Orchestrator :=
  { sessions := [("sid-1", rSess0)],
    heap := { cells := [[{ role := "user", content := "hi", timestamp := 1 }]] } }

/-- `rOrch0` after `get_session_history` allocated the copy. -/
def rOrch1 : RefModel.Orchestrator :=
  { sessions := rOrch0.sessions,
    heap := { cells := rOrch0.heap.cells ++ [rOrch0.heap.get 0] } }

/-! ## Association-list lemmas -/

theorem dictFind_dictInsert_self {α : Type} (d : List (String × α))
    (k : String) (v : α) : dictFind (dictInsert d k v) k = some v := by
  induction d with
  | nil => simp [dictInsert, dictFind]
  | cons kv rest ih =>
      obtain ⟨k', v'⟩ := kv
      by_cases hk : k' = k
      · simp [dictInsert, dictFind, hk]
      · simp [dictInsert, dictFind, hk, ih]

theorem dictFind_mem {α : Type} {d : List (String × α)} {k : String} {v : α}
    (h : dictFind d k = some v) : (k, v) ∈ d := by
  induction d with
  | nil => simp [dictFind] at h
  | cons kv rest ih =>
      obtain ⟨k', v'⟩ := kv
      simp only [dictFind] at h
      by_cases hk : k' = k
      · rw [if_pos hk] at h
        obtain rfl := hk
        injection h with h
        subst h
        exact List.mem_cons_self _ _
      · rw [if_neg hk] at h
        exact List.mem_cons_of_mem _ (ih h)

theorem dictInsert_append_fresh {α : Type} {d : List (String × α)}
    {k : String} (v : α) (h : dictFind d k = none) :
    dictInsert d k v = d ++ [(k, v)] := by
  induction d with
  | nil => rfl
  | cons kv rest ih =>
      obtain ⟨k', v'⟩ := kv
      simp only [dictFind] at h
      by_cases hk : k' = k
      · rw [if_pos hk] at h; simp at h
      · rw [if_neg hk] at h
        simp [dictInsert, hk, ih h]

theorem dictErase_dictInsert_fresh {α : Type} {d : List (String × α)}
    {k : String} (v : α) (h : dictFind d k = none) :
    dictErase (dictInsert d k v) k = d := by
  induction d with
  | nil => simp [dictInsert, dictErase]
  | cons kv rest ih =>
      obtain ⟨k', v'⟩ := kv
      simp only [dictFind] at h
      by_cases hk : k' = k
      · rw [if_pos hk] at h; simp at h
      · rw [if_neg hk] at h
        simp [dictInsert, dictErase, hk, ih h]

theorem dictFind_append_none {α : Type} {a b : List (String × α)} {k : String}
    (ha : dictFind a k = none) (hb : dictFind b k = none) :
    dictFind (a ++ b) k = none := by
  induction a with
  | nil => simpa using hb
  | cons kv rest ih =>
      obtain ⟨k', v'⟩ := kv
      simp only [dictFind] at ha
      simp only [List.cons_append, dictFind]
      by_cases hk : k' = k
      · rw [if_pos hk] at ha; simp at ha
      · rw [if_neg hk] at ha
        rw [if_neg hk]
        exact ih ha

/-! ## Facts about the provider start operations -/

theorem OllamaProvider.ollama_start_session_ok {config : ProviderConfig}
    {sid : String} {now : Nat} {tags : Option (List String)} {s : AISession}
    (h : OllamaProvider.start_session config sid now tags = Except.ok s) :
    s.provider_config = config ∧ s.session_id = sid ∧
    s.status = SessionStatus.active ∧
    OllamaProvider.check_model config tags = true := by
  simp only [OllamaProvider.start_session] at h
  split at h
  next hcheck =>
    injection h with h
    subst h
    exact ⟨rfl, rfl, rfl, hcheck⟩
  next => simp at h

theorem OllamaProvider.check_model_true {cfg : ProviderConfig}
    {tags : Option (List String)}
    (h : OllamaProvider.check_model cfg tags = true) :
    ∃ m models, cfg.model = some m ∧ tags = some models ∧ m ∈ models := by
  simp only [OllamaProvider.check_model] at h
  split at h
  · cases htags : tags with
    | none => rw [htags] at h; simp at h
    | some models =>
        cases hmodel : cfg.model with
        | none => rw [htags, hmodel] at h; simp at h
        | some m =>
            rw [htags, hmodel] at h
            exact ⟨m, models, rfl, rfl, by simpa using h⟩
  · simp at h

theorem OpenAICompatibleProvider.openai_start_session_ok {config : ProviderConfig}
    {sid : String} {now : Nat} {modelsStatus : Option Nat} {s : AISession}
    (h : OpenAICompatibleProvider.start_session config sid now modelsStatus =
      Except.ok s) :
    s.provider_config = config ∧ s.session_id = sid ∧
    s.status = SessionStatus.active := by
  simp only [OpenAICompatibleProvider.start_session] at h
  split at h
  next =>
    injection h with h
    subst h
    exact ⟨rfl, rfl, rfl⟩
  next => simp at h

theorem GeminiCLIProvider.gemini_start_fields (config : ProviderConfig)
    (sid : String) (now : Nat) (spawn : SpawnResult) :
    (GeminiCLIProvider.start_session config sid now spawn).provider_config =
      config ∧
    (GeminiCLIProvider.start_session config sid now spawn).session_id = sid := by
  cases spawn <;> exact ⟨rfl, rfl⟩

theorem GitHubCopilotProvider.copilot_start_fields (config : ProviderConfig)
    (sid : String) (now : Nat) (spawn : SpawnResult) :
    (GitHubCopilotProvider.start_session config sid now spawn).provider_config =
      config ∧
    (GitHubCopilotProvider.start_session config sid now spawn).session_id =
      sid := by
  cases spawn <;> exact ⟨rfl, rfl⟩

theorem GeminiCLIProvider.gemini_start_active {config : ProviderConfig}
    {sid : String} {now : Nat} {spawn : SpawnResult}
    (h : (GeminiCLIProvider.start_session config sid now spawn).status =
      SessionStatus.active) :
    ∃ pr, spawn = SpawnResult.ok pr ∧
      (GeminiCLIProvider.start_session config sid now spawn).process =
        some pr := by
  cases spawn with
  | ok pr => exact ⟨pr, rfl, rfl⟩
  | failure m => simp [GeminiCLIProvider.start_session] at h

theorem GitHubCopilotProvider.copilot_start_active {config : ProviderConfig}
    {sid : String} {now : Nat} {spawn : SpawnResult}
    (h : (GitHubCopilotProvider.start_session config sid now spawn).status =
      SessionStatus.active) :
    ∃ pr, spawn = SpawnResult.ok pr ∧
      (GitHubCopilotProvider.start_session config sid now spawn).process =
        some pr := by
  cases spawn with
  | ok pr => exact ⟨pr, rfl, rfl⟩
  | failure m => simp [GitHubCopilotProvider.start_session] at h

theorem AIProvider.provider_start_session_ok {p : AIProvider} {sid : String} {now : Nat}
    {env : StartEnv} {s : AISession}
    (h : p.start_session sid now env = Except.ok s) :
    s.provider_config = p.config ∧ s.session_id = sid := by
  cases p with
  | geminiCLI config =>
      simp only [AIProvider.start_session] at h
      injection h with h
      subst h
      exact GeminiCLIProvider.gemini_start_fields config sid now env.spawn
  | githubCopilot config =>
      simp only [AIProvider.start_session] at h
      injection h with h
      subst h
      exact GitHubCopilotProvider.copilot_start_fields config sid now env.spawn
  | ollama config =>
      simp only [AIProvider.start_session] at h
      obtain ⟨h1, h2, _, _⟩ := OllamaProvider.ollama_start_session_ok h
      exact ⟨h1, h2⟩
  | openAICompatible config =>
      simp only [AIProvider.start_session] at h
      obtain ⟨h1, h2, _⟩ := OpenAICompatibleProvider.openai_start_session_ok h
      exact ⟨h1, h2⟩

theorem AIProvider.start_session_status {p : AIProvider} {sid : String}
    {now : Nat} {env : StartEnv} {s : AISession}
    (h : p.start_session sid now env = Except.ok s) :
    s.status = SessionStatus.active ∨
    (s.status = SessionStatus.error ∧
      (∃ cfg, p = AIProvider.geminiCLI cfg ∨ p = AIProvider.githubCopilot cfg) ∧
      ∃ msg, env.spawn = SpawnResult.failure msg) := by
  cases p with
  | geminiCLI config =>
      simp only [AIProvider.start_session] at h
      injection h with h
      subst h
      cases hsp : env.spawn with
      | ok pr => exact Or.inl (by simp [GeminiCLIProvider.start_session, hsp])
      | failure m =>
          exact Or.inr ⟨by simp [GeminiCLIProvider.start_session, hsp],
            ⟨config, Or.inl rfl⟩, m, rfl⟩
  | githubCopilot config =>
      simp only [AIProvider.start_session] at h
      injection h with h
      subst h
      cases hsp : env.spawn with
      | ok pr => exact Or.inl (by simp [GitHubCopilotProvider.start_session, hsp])
      | failure m =>
          exact Or.inr ⟨by simp [GitHubCopilotProvider.start_session, hsp],
            ⟨config, Or.inr rfl⟩, m, rfl⟩
  | ollama config =>
      simp only [AIProvider.start_session] at h
      exact Or.inl (OllamaProvider.ollama_start_session_ok h).2.2.1
  | openAICompatible config =>
      simp only [AIProvider.start_session] at h
      exact Or.inl (OpenAICompatibleProvider.openai_start_session_ok h).2.2

/-! ## Claim C2 -/

/-- Claim C2: `ProviderConfig` is a plain dataclass and performs no
construction-time validation — the very input the repo's own
`test_configuration_validation` marks "Missing required fields / Should have
failed" (a `gemini-cli` entry with no command) constructs successfully, so
a `ProviderConfig` value exists whose transport kind's required fields are
all absent. -/
theorem C2_no_construction_validation :
    missingRequiredConfig.provider_type = ProviderType.gemini_cli ∧
    missingRequiredConfig.command = none ∧
    missingRequiredConfig.api_endpoint = none ∧
    missingRequiredConfig.api_key = none :=
  ⟨rfl, rfl, rfl, rfl⟩

/-! ## Claim C3 -/

/-- Claim C3, counterexample: the Ollama variant performs no session-status
check — on a session whose status is `inactive`, `send_message` with a 200
response succeeds instead of failing with `SessionNotActive`. -/
theorem C3_send_message_counterexample :
    sessInactive0.status ≠ SessionStatus.active ∧
    (OllamaProvider.send_message ollamaConfig0 sessInactive0 "hello"
        (HttpOutcome.ok "hi") 1 2 3).1 = Except.ok "hi" :=
  ⟨by decide, rfl⟩

/-- Claim C3 (amended): the subprocess variants reject any session that is
not in `active` status with `SessionNotActive`, leaving the session
unchanged; the HTTP variants perform no status check at all — with an
endpoint configured, the round trip proceeds and can even succeed on a
session of any status. -/
theorem C3_send_message_amended (session : AISession) (message r : String)
    (cfg : ProviderConfig) (t1 t2 t3 : Nat)
    (hs : session.status ≠ SessionStatus.active)
    (hep : truthy cfg.api_endpoint = true) :
    (∀ outcome,
      GeminiCLIProvider.send_message session message outcome t1 t2 t3 =
        (Except.error SendError.sessionNotActive, session)) ∧
    (∀ outcome,
      GitHubCopilotProvider.send_message session message outcome t1 t2 t3 =
        (Except.error SendError.sessionNotActive, session)) ∧
    (OllamaProvider.send_message cfg session message (HttpOutcome.ok r)
        t1 t2 t3).1 = Except.ok r ∧
    (OpenAICompatibleProvider.send_message cfg session message
        (HttpOutcome.ok r) t1 t2 t3).1 = Except.ok r := by
  refine ⟨?_, ?_, ?_, ?_⟩
  · intro outcome
    simp [GeminiCLIProvider.send_message, hs]
  · intro outcome
    simp [GitHubCopilotProvider.send_message, hs]
  · simp [OllamaProvider.send_message, hep]
  · simp [OpenAICompatibleProvider.send_message, hep]

/-- Witness for C3 (amended) at a concrete input. -/
theorem C3_send_message_amended_witness :
    GeminiCLIProvider.send_message sessInactive0 "hello"
        (TransportOutcome.reply "hi") 1 2 3 =
      (Except.error SendError.sessionNotActive, sessInactive0) :=
  (C3_send_message_amended sessInactive0 "hello" "hi" ollamaConfig0 1 2 3
      (by decide) rfl).1 (TransportOutcome.reply "hi")

/-! ## Claim C4 -/

/-- Claim C4: when the transport round trip exceeds the configured timeout,
`send_message` fails with `Timeout` and returns the session record exactly
as it was — status still `active`, conversation log and `last_activity`
untouched — across all four variants. -/
theorem C4_timeout_leaves_session_unchanged (session : AISession)
    (message : String) (p : Popen) (cfg : ProviderConfig) (t1 t2 t3 : Nat)
    (hact : session.status = SessionStatus.active)
    (hproc : session.process = some p)
    (hep : truthy cfg.api_endpoint = true) :
    GeminiCLIProvider.send_message session message TransportOutcome.timedOut
        t1 t2 t3 = (Except.error SendError.timeout, session) ∧
    GitHubCopilotProvider.send_message session message
        TransportOutcome.timedOut t1 t2 t3 =
      (Except.error SendError.timeout, session) ∧
    OllamaProvider.send_message cfg session message HttpOutcome.timedOut
        t1 t2 t3 = (Except.error SendError.timeout, session) ∧
    OpenAICompatibleProvider.send_message cfg session message
        HttpOutcome.timedOut t1 t2 t3 =
      (Except.error SendError.timeout, session) := by
  refine ⟨?_, ?_, ?_, ?_⟩
  · simp [GeminiCLIProvider.send_message, hproc, hact]
  · simp [GitHubCopilotProvider.send_message, hproc, hact]
  · simp [OllamaProvider.send_message, hep]
  · simp [OpenAICompatibleProvider.send_message, hep]

/-- Witness for C4 at a concrete input. -/
theorem C4_timeout_witness :
    GeminiCLIProvider.send_message sessActive0 "ping"
        TransportOutcome.timedOut 1 2 3 =
      (Except.error SendError.timeout, sessActive0) :=
  (C4_timeout_leaves_session_unchanged sessActive0 "ping" { pid := 7 }
      ollamaConfig0 1 2 3 rfl rfl rfl).1

/-! ## Claim C8 -/

/-- Claim C8, counterexample: the subprocess variant returns false for a
session holding no process even though no failure to release anything
occurred — and without marking the session inactive — refuting "returns
false only on an unexpected failure to release the subprocess resource". -/
theorem C8_stop_session_counterexample :
    GeminiCLIProvider.stop_session sessError0 false = (false, sessError0) ∧
    sessError0.process = none ∧
    sessError0.status ≠ SessionStatus.inactive :=
  ⟨rfl, rfl, by decide⟩

/-- Claim C8 (amended): the subprocess variants return false in exactly two
cases — a raised failure while terminating the process (session left
unchanged) and a session holding no process at all (the failed-spawn case);
otherwise they mark the session inactive and return true.  The HTTP
variants mark the session inactive and return true unconditionally. -/
theorem C8_stop_session_amended (session : AISession) (p : Popen)
    (raises : Bool) :
    (session.process = none →
      GeminiCLIProvider.stop_session session raises = (false, session) ∧
      GitHubCopilotProvider.stop_session session raises = (false, session)) ∧
    (session.process = some p → raises = true →
      GeminiCLIProvider.stop_session session raises = (false, session) ∧
      GitHubCopilotProvider.stop_session session raises = (false, session)) ∧
    (session.process = some p → raises = false →
      GeminiCLIProvider.stop_session session raises =
        (true, { session with status := SessionStatus.inactive }) ∧
      GitHubCopilotProvider.stop_session session raises =
        (true, { session with status := SessionStatus.inactive })) ∧
    OllamaProvider.stop_session session =
      (true, { session with status := SessionStatus.inactive }) ∧
    OpenAICompatibleProvider.stop_session session =
      (true, { session with status := SessionStatus.inactive }) := by
  refine ⟨?_, ?_, ?_, rfl, rfl⟩
  · intro h
    constructor <;>
      simp [GeminiCLIProvider.stop_session,
        GitHubCopilotProvider.stop_session, h]
  · intro h hr
    subst hr
    constructor <;>
      simp [GeminiCLIProvider.stop_session,
        GitHubCopilotProvider.stop_session, h]
  · intro h hr
    subst hr
    constructor <;>
      simp [GeminiCLIProvider.stop_session,
        GitHubCopilotProvider.stop_session, h]

/-- Witness for C8 (amended) at a concrete input. -/
theorem C8_stop_session_amended_witness :
    GeminiCLIProvider.stop_session sessActive0 false =
      (true, { sessActive0 with status := SessionStatus.inactive }) :=
  ((C8_stop_session_amended sessActive0 { pid := 7 } false).2.2.1 rfl rfl).1

/-! ## Claim C9 -/

/-- Claim C9: the Ollama variant returns an `active` session only when the
configured model appears in the daemon's reported catalog; with the model
absent from the catalog, or with no endpoint or model configured
(Python-falsy), `start_session` raises instead of returning a session. -/
theorem C9_ollama_model_check (cfg : ProviderConfig) (sid : String)
    (now : Nat) (tags : Option (List String)) :
    (∀ s, OllamaProvider.start_session cfg sid now tags = Except.ok s →
      s.status = SessionStatus.active ∧
      ∃ m models, cfg.model = some m ∧ tags = some models ∧ m ∈ models) ∧
    (truthy cfg.api_endpoint = false ∨ truthy cfg.model = false →
      OllamaProvider.start_session cfg sid now tags =
        Except.error ("Model " ++ pyStr cfg.model ++ " not available")) ∧
    (∀ models m, tags = some models → cfg.model = some m → m ∉ models →
      OllamaProvider.start_session cfg sid now tags =
        Except.error ("Model " ++ pyStr cfg.model ++ " not available")) := by
  refine ⟨?_, ?_, ?_⟩
  · intro s h
    obtain ⟨_, _, hstatus, hcheck⟩ := OllamaProvider.ollama_start_session_ok h
    exact ⟨hstatus, OllamaProvider.check_model_true hcheck⟩
  · intro h
    simp only [OllamaProvider.start_session, OllamaProvider.check_model]
    rcases h with h | h <;> simp [h]
  · intro models m htags hmodel hnotmem
    simp only [OllamaProvider.start_session, OllamaProvider.check_model,
      htags, hmodel]
    simp [hnotmem]

/-- Witness for C9 at a concrete input: no model configured, so the start
raises even though the daemon reports a catalog. -/
theorem C9_ollama_model_check_witness :
    OllamaProvider.start_session ollamaConfigNoModel "sid-3" 0
        (some ["llama2"]) =
      Except.error ("Model " ++ pyStr ollamaConfigNoModel.model ++
        " not available") :=
  (C9_ollama_model_check ollamaConfigNoModel "sid-3" 0
      (some ["llama2"])).2.1 (Or.inr rfl)

/-! ## Claim C1 -/

/-- Claim C1, counterexample: against the gemini-cli provider, when the
subprocess spawn fails, `Orchestrator.start_session` still returns a
session id, and the session registered under that id has status `error`,
not `active` — so returning an id does not imply an `active` session. -/
theorem C1_start_session_counterexample :
    orch0.start_session "gemini" "sid-1" 0 envSpawnFail =
      Except.ok (orchErr1, "sid-1") ∧
    dictFind orchErr1.sessions "sid-1" = some sessError0 ∧
    sessError0.status ≠ SessionStatus.active :=
  ⟨rfl, rfl, by decide⟩

/-- Claim C1 (amended): `Orchestrator.start_session` fails with
`UnknownProvider` for an unregistered name and with `ProviderUnavailable`
when `is_available()` reports false; whenever it returns a session id, the
session registered under that id is in `active` status — except that the
subprocess variants swallow a failed spawn and hand back a session that
gets registered in `error` status. -/
theorem C1_start_session_amended (o : AIProviderOrchestrator)
    (name sid : String) (now : Nat) (env : StartEnv) :
    (o.get_provider name = none →
      o.start_session name sid now env =
        Except.error (OrchError.unknownProvider name)) ∧
    (o.get_provider name ≠ none → env.available = false →
      o.start_session name sid now env =
        Except.error (OrchError.providerUnavailable name)) ∧
    (∀ o' sid', o.start_session name sid now env = Except.ok (o', sid') →
      ∃ s, dictFind o'.sessions sid' = some s ∧
        (s.status = SessionStatus.active ∨ s.status = SessionStatus.error) ∧
        (s.status = SessionStatus.error →
          (∃ cfg, o.get_provider name = some (AIProvider.geminiCLI cfg) ∨
            o.get_provider name = some (AIProvider.githubCopilot cfg)) ∧
          ∃ msg, env.spawn = SpawnResult.failure msg)) := by
  refine ⟨?_, ?_, ?_⟩
  · intro h
    simp [AIProviderOrchestrator.start_session, h]
  · intro h hav
    cases hp : o.get_provider name with
    | none => exact absurd hp h
    | some p => simp [AIProviderOrchestrator.start_session, hp, hav]
  · intro o' sid' h
    cases hp : o.get_provider name with
    | none => simp [AIProviderOrchestrator.start_session, hp] at h
    | some p =>
        cases hav : env.available with
        | false => simp [AIProviderOrchestrator.start_session, hp, hav] at h
        | true =>
            simp only [AIProviderOrchestrator.start_session, hp, hav,
              if_true] at h
            cases hps : p.start_session sid now env with
            | error msg => rw [hps] at h; simp at h
            | ok s0 =>
                rw [hps] at h
                simp only at h
                injection h with h
                injection h with ho hsid
                subst ho
                subst hsid
                refine ⟨s0, dictFind_dictInsert_self _ _ _, ?_, ?_⟩
                · rcases AIProvider.start_session_status hps with ha | ⟨he, _, _⟩
                  · exact Or.inl ha
                  · exact Or.inr he
                · intro herr
                  rcases AIProvider.start_session_status hps with ha | h3
                  · rw [ha] at herr; cases herr
                  · obtain ⟨_, ⟨cfg, hcfg | hcfg⟩, hmsg⟩ := h3
                    · exact ⟨⟨cfg, Or.inl (by rw [hcfg])⟩, hmsg⟩
                    · exact ⟨⟨cfg, Or.inr (by rw [hcfg])⟩, hmsg⟩

/-- Witness for C1 (amended) at a concrete input: the registered provider
with a false availability probe yields `ProviderUnavailable`. -/
theorem C1_start_session_amended_witness :
    orch0.start_session "gemini" "sid-1" 0 envUnavailable =
      Except.error (OrchError.providerUnavailable "gemini") :=
  (C1_start_session_amended orch0 "gemini" "sid-1" 0 envUnavailable).2.1
    (by decide) rfl

/-! ## Claim C7 -/

/-- Claim C7, counterexample: with the gemini-cli provider and a failed
spawn, `start_session` hands back a session id, but `stop_session` on that
id returns false — the error session holds no process — and the entry
stays in the registry, so the start/stop round trip does not remove it. -/
theorem C7_start_stop_counterexample :
    orch0.start_session "gemini" "sid-1" 0 envSpawnFail =
      Except.ok (orchErr1, "sid-1") ∧
    orchErr1.stop_session "sid-1" false = (false, orchErr1) ∧
    dictFind orchErr1.sessions "sid-1" = some sessError0 :=
  ⟨rfl, rfl, rfl⟩

/-- Claim C7 (amended): on a well-formed registry and a fresh session id,
whenever `start_session` succeeds AND the session it registered is in
`active` status (for the subprocess variants this means the spawn
succeeded; a failed spawn registers an `error` session instead, which
`stop_session` then refuses to remove), `stop_session` without a terminate
failure returns true and restores the registry to exactly its prior state
— in particular the session registry has no entry for the id. -/
theorem C7_start_stop_roundtrip (o : AIProviderOrchestrator)
    (name sid : String) (now : Nat) (env : StartEnv)
    (o' : AIProviderOrchestrator) (s : AISession)
    (hwf : ∀ pr ∈ o.providers, (AIProvider.config pr.2).name = pr.1)
    (hfresh : dictFind o.sessions sid = none)
    (hstart : o.start_session name sid now env = Except.ok (o', sid))
    (hs : dictFind o'.sessions sid = some s)
    (hact : s.status = SessionStatus.active) :
    o'.stop_session sid false = (true, o) ∧
    dictFind o.sessions sid = none := by
  refine ⟨?_, hfresh⟩
  cases hp : o.get_provider name with
  | none => simp [AIProviderOrchestrator.start_session, hp] at hstart
  | some p =>
      cases hav : env.available with
      | false => simp [AIProviderOrchestrator.start_session, hp, hav] at hstart
      | true =>
          simp only [AIProviderOrchestrator.start_session, hp, hav,
            if_true] at hstart
          cases hps : p.start_session sid now env with
          | error msg => rw [hps] at hstart; simp at hstart
          | ok s0 =>
              rw [hps] at hstart
              simp only at hstart
              injection hstart with hpair
              injection hpair with ho hsid
              obtain ⟨hcfg, _⟩ := AIProvider.provider_start_session_ok hps
              subst ho
              subst hsid
              rw [dictFind_dictInsert_self] at hs
              injection hs with hss
              subst hss
              simp only [AIProviderOrchestrator.get_provider] at hp
              have hname : (AIProvider.config p).name = name :=
                hwf _ (dictFind_mem hp)
              simp only [AIProviderOrchestrator.stop_session,
                dictFind_dictInsert_self, AIProviderOrchestrator.get_provider,
                hcfg, hname, hp]
              have hstop : p.stop_session s0 false =
                  (true, { s0 with status := SessionStatus.inactive }) := by
                cases p with
                | geminiCLI cfg =>
                    simp only [AIProvider.start_session] at hps
                    injection hps with hps
                    rw [← hps] at hact
                    obtain ⟨pr, _, hproc⟩ :=
                      GeminiCLIProvider.gemini_start_active hact
                    rw [hps] at hproc
                    simp [AIProvider.stop_session,
                      GeminiCLIProvider.stop_session, hproc]
                | githubCopilot cfg =>
                    simp only [AIProvider.start_session] at hps
                    injection hps with hps
                    rw [← hps] at hact
                    obtain ⟨pr, _, hproc⟩ :=
                      GitHubCopilotProvider.copilot_start_active hact
                    rw [hps] at hproc
                    simp [AIProvider.stop_session,
                      GitHubCopilotProvider.stop_session, hproc]
                | ollama cfg => rfl
                | openAICompatible cfg => rfl
              rw [hstop]
              simp only [if_true]
              rw [dictErase_dictInsert_fresh _ hfresh]

/-- Witness for C7 (amended) at a concrete input: a successfully spawned
gemini session, started then stopped, restores the empty registry. -/
theorem C7_start_stop_roundtrip_witness :
    orchAct1.stop_session "sid-1" false = (true, orch0) ∧
    dictFind orch0.sessions "sid-1" = none :=
  C7_start_stop_roundtrip orch0 "gemini" "sid-1" 0 envSpawnOk orchAct1
    sessActive0 (by decide) rfl rfl rfl rfl

/-! ## Claim C5 -/

/-- Claim C5: a successful `send_message` grows the conversation log by
exactly two entries — a user turn followed by an assistant turn — both
timestamped between the call's start and return (the successive
`time.time()` readings being bracketed by those bounds), and updates the
session's `last_activity`; uniformly across the four variants. -/
theorem C5_send_message_appends_two_turns (session : AISession)
    (message response : String) (p : Popen) (cfg : ProviderConfig)
    (tstart t1 t2 t3 tret : Nat)
    (hact : session.status = SessionStatus.active)
    (hproc : session.process = some p)
    (hep : truthy cfg.api_endpoint = true)
    (h01 : tstart ≤ t1) (h12 : t1 ≤ t2) (h23 : t2 ≤ t3) (h3r : t3 ≤ tret) :
    ∃ s' : AISession,
      GeminiCLIProvider.send_message session message
          (TransportOutcome.reply response) t1 t2 t3 =
        (Except.ok response, s') ∧
      GitHubCopilotProvider.send_message session message
          (TransportOutcome.reply response) t1 t2 t3 =
        (Except.ok response, s') ∧
      OllamaProvider.send_message cfg session message
          (HttpOutcome.ok response) t1 t2 t3 = (Except.ok response, s') ∧
      OpenAICompatibleProvider.send_message cfg session message
          (HttpOutcome.ok response) t1 t2 t3 = (Except.ok response, s') ∧
      s'.conversation_history = session.conversation_history ++
        [{ role := "user", content := message, timestamp := t2 },
         { role := "assistant", content := response, timestamp := t3 }] ∧
      s'.conversation_history.length =
        session.conversation_history.length + 2 ∧
      tstart ≤ t2 ∧ t2 ≤ tret ∧ tstart ≤ t3 ∧ t3 ≤ tret ∧
      s'.last_activity = t1 ∧ tstart ≤ t1 ∧ t1 ≤ tret ∧
      s'.status = SessionStatus.active := by
  refine ⟨{ session with
      last_activity := t1,
      conversation_history := session.conversation_history ++
        [{ role := "user", content := message, timestamp := t2 },
         { role := "assistant", content := response, timestamp := t3 }] },
    ?_, ?_, ?_, ?_, rfl, by simp, by omega, by omega, by omega, by omega,
    rfl, by omega, by omega, by simpa using hact⟩
  · simp [GeminiCLIProvider.send_message, hproc, hact]
  · simp [GitHubCopilotProvider.send_message, hproc, hact]
  · simp [OllamaProvider.send_message, hep]
  · simp [OpenAICompatibleProvider.send_message, hep]

/-- Witness for C5 at a concrete input: the log of the returned session
has grown by exactly two entries. -/
theorem C5_send_message_witness :
    (GeminiCLIProvider.send_message sessActive0 "hello"
        (TransportOutcome.reply "world") 1 2 3).2.conversation_history.length =
      sessActive0.conversation_history.length + 2 := by
  obtain ⟨s', hg, -, -, -, -, hlen, -⟩ :=
    C5_send_message_appends_two_turns sessActive0 "hello" "world"
      { pid := 7 } ollamaConfig0 0 1 2 3 4 rfl rfl rfl
      (by omega) (by omega) (by omega) (by omega)
  rw [hg]
  exact hlen

/-! ## Claim C6 -/

theorem WebInterface.get_provider_response_fst
    (rs : String → WebInterface.PipelineRun) (q : String) :
    (WebInterface.get_provider_response rs q).1 = q := by
  cases h1 : (rs q).start with
  | error e => simp [WebInterface.get_provider_response, h1]
  | ok v =>
      cases h2 : (rs q).send with
      | error e => simp [WebInterface.get_provider_response, h1, h2]
      | ok w =>
          cases h3 : (rs q).stop with
          | error e => simp [WebInterface.get_provider_response, h1, h2, h3]
          | ok b => simp [WebInterface.get_provider_response, h1, h2, h3]

theorem WebInterface.get_provider_response_congr
    (runs runs' : String → WebInterface.PipelineRun) (q : String)
    (h1 : (runs' q).start = (runs q).start)
    (h2 : (runs' q).send = (runs q).send)
    (h3 : (runs' q).stop = (runs q).stop) :
    WebInterface.get_provider_response runs' q =
      WebInterface.get_provider_response runs q := by
  simp only [WebInterface.get_provider_response, h1, h2, h3]

theorem WebInterface.slots_map_fst (clock : Nat → Nat) :
    ∀ (i : Nat) (rs : List (String × String)),
      (WebInterface.slots clock i rs).map Prod.fst = rs.map Prod.fst
  | _, [] => rfl
  | i, (name, response) :: rest => by
      simp only [WebInterface.slots, List.map_cons]
      rw [WebInterface.slots_map_fst clock (i + 1) rest]

theorem WebInterface.insertResults_eq_append (clock : Nat → Nat) :
    ∀ (rs : List (String × String)) (i : Nat)
      (acc : List (String × WebInterface.CompareSlot)),
      (rs.map Prod.fst).Nodup →
      (∀ k ∈ rs.map Prod.fst, dictFind acc k = none) →
      WebInterface.insertResults clock i rs acc =
        acc ++ WebInterface.slots clock i rs
  | [], _, acc, _, _ => by
      simp [WebInterface.insertResults, WebInterface.slots]
  | (name, response) :: rest, i, acc, hnd, hfresh => by
      have hnd' : (rest.map Prod.fst).Nodup :=
        (List.nodup_cons.mp (by simpa using hnd)).2
      have hname : name ∉ rest.map Prod.fst :=
        (List.nodup_cons.mp (by simpa using hnd)).1
      have hfresh' : ∀ k ∈ rest.map Prod.fst,
          dictFind (acc ++ [(name,
            ({ response := response, timestamp := clock i } :
              WebInterface.CompareSlot))]) k = none := by
        intro k hk
        apply dictFind_append_none (hfresh k (by simp [hk]))
        have hne : ¬ (name = k) := by
          intro h; exact hname (h ▸ hk)
        simp [dictFind, hne]
      simp only [WebInterface.insertResults, WebInterface.slots]
      rw [dictInsert_append_fresh _ (hfresh name (by simp)),
        WebInterface.insertResults_eq_append clock rest (i + 1) _ hnd' hfresh']
      simp

theorem WebInterface.dictFind_slots_of_mem (clock : Nat → Nat)
    (f : String → String × String) (hf : ∀ q, (f q).1 = q) (q : String) :
    ∀ (providers : List String) (i : Nat), q ∈ providers →
      ∃ t, dictFind (WebInterface.slots clock i (providers.map f)) q =
        some { response := (f q).2, timestamp := t } := by
  intro providers
  induction providers with
  | nil => intro i hq; exact absurd hq (List.not_mem_nil q)
  | cons p tl ih =>
      intro i hq
      have hfp : f p = (p, (f p).2) := Prod.ext_iff.mpr ⟨hf p, rfl⟩
      simp only [List.map_cons]
      rw [hfp]
      simp only [WebInterface.slots, dictFind]
      by_cases hpq : p = q
      · subst hpq
        exact ⟨clock i, by rw [if_pos rfl]⟩
      · rw [if_neg hpq]
        have hqt : q ∈ tl := by
          rcases List.mem_cons.mp hq with h | h
          · exact absurd h.symm hpq
          · exact h
        exact ih (i + 1) hqt

theorem WebInterface.dictFind_slots_of_not_mem (clock : Nat → Nat)
    (f : String → String × String) (hf : ∀ q, (f q).1 = q) (q : String) :
    ∀ (providers : List String) (i : Nat), q ∉ providers →
      dictFind (WebInterface.slots clock i (providers.map f)) q = none := by
  intro providers
  induction providers with
  | nil => intro i _; rfl
  | cons p tl ih =>
      intro i hq
      have hfp : f p = (p, (f p).2) := Prod.ext_iff.mpr ⟨hf p, rfl⟩
      simp only [List.map_cons]
      rw [hfp]
      simp only [WebInterface.slots, dictFind]
      rw [if_neg (fun h => hq (by rw [← h]; exact List.mem_cons_self p tl))]
      exact ih (i + 1) (fun h => hq (List.mem_cons_of_mem p h))

theorem WebInterface.dictFind_slots_congr (clock : Nat → Nat)
    (f g : String → String × String) (hf : ∀ q, (f q).1 = q)
    (hg : ∀ q, (g q).1 = q) (q : String) (hq : (f q).2 = (g q).2) :
    ∀ (providers : List String) (i : Nat),
      dictFind (WebInterface.slots clock i (providers.map f)) q =
        dictFind (WebInterface.slots clock i (providers.map g)) q := by
  intro providers
  induction providers with
  | nil => intro i; rfl
  | cons p tl ih =>
      intro i
      have hfp : f p = (p, (f p).2) := Prod.ext_iff.mpr ⟨hf p, rfl⟩
      have hgp : g p = (p, (g p).2) := Prod.ext_iff.mpr ⟨hg p, rfl⟩
      simp only [List.map_cons]
      rw [hfp, hgp]
      simp only [WebInterface.slots, dictFind]
      by_cases hpq : p = q
      · subst hpq
        rw [if_pos rfl, if_pos rfl, hq]
      · rw [if_neg hpq, if_neg hpq]
        exact ih (i + 1)

/-- Claim C6: with pairwise-distinct requested names, `compare_providers`
returns a mapping with exactly one slot per requested provider name (in
request order); each name's slot carries its own pipeline's rendered
outcome — an `"Error: ..."` string whenever any of its three steps (start,
send, stop) raised — and a provider's slot is entirely determined by its
own pipeline run: altering any other provider's run leaves it unchanged. -/
theorem C6_compare_fanout (runs : String → WebInterface.PipelineRun)
    (providers : List String) (clock : Nat → Nat) (hnd : providers.Nodup) :
    (WebInterface.compare_providers runs providers clock).map Prod.fst =
      providers ∧
    (∀ q ∈ providers, ∃ t,
      dictFind (WebInterface.compare_providers runs providers clock) q =
        some { response := (WebInterface.get_provider_response runs q).2,
               timestamp := t }) ∧
    (∀ q, q ∉ providers →
      dictFind (WebInterface.compare_providers runs providers clock) q =
        none) ∧
    (∀ q e, (runs q).start = Except.error e →
      (WebInterface.get_provider_response runs q).2 = "Error: " ++ e) ∧
    (∀ q v e, (runs q).start = Except.ok v →
      (runs q).send = Except.error e →
      (WebInterface.get_provider_response runs q).2 = "Error: " ++ e) ∧
    (∀ q v w e, (runs q).start = Except.ok v → (runs q).send = Except.ok w →
      (runs q).stop = Except.error e →
      (WebInterface.get_provider_response runs q).2 = "Error: " ++ e) ∧
    (∀ (runs' : String → WebInterface.PipelineRun) (q : String),
      (runs' q).start = (runs q).start → (runs' q).send = (runs q).send →
      (runs' q).stop = (runs q).stop →
      dictFind (WebInterface.compare_providers runs' providers clock) q =
        dictFind (WebInterface.compare_providers runs providers clock) q) := by
  have hcompare : ∀ (rs : String → WebInterface.PipelineRun),
      WebInterface.compare_providers rs providers clock =
        WebInterface.slots clock 0
          (providers.map (WebInterface.get_provider_response rs)) := by
    intro rs
    have hkeys : ((providers.map (WebInterface.get_provider_response rs)).map
        Prod.fst) = providers := by
      rw [List.map_map]
      have heq : providers.map
          (Prod.fst ∘ WebInterface.get_provider_response rs) =
          providers.map id :=
        List.map_congr_left
          (fun q _ => WebInterface.get_provider_response_fst rs q)
      rw [heq, List.map_id]
    rw [WebInterface.compare_providers,
      WebInterface.insertResults_eq_append clock _ 0 []
        (by rw [hkeys]; exact hnd) (fun k _ => rfl)]
    simp
  refine ⟨?_, ?_, ?_, ?_, ?_, ?_, ?_⟩
  · rw [hcompare runs, WebInterface.slots_map_fst]
    rw [List.map_map]
    have heq : providers.map
        (Prod.fst ∘ WebInterface.get_provider_response runs) =
        providers.map id :=
      List.map_congr_left
        (fun q _ => WebInterface.get_provider_response_fst runs q)
    rw [heq, List.map_id]
  · intro q hq
    rw [hcompare runs]
    exact WebInterface.dictFind_slots_of_mem clock _
      (WebInterface.get_provider_response_fst runs) q providers 0 hq
  · intro q hq
    rw [hcompare runs]
    exact WebInterface.dictFind_slots_of_not_mem clock _
      (WebInterface.get_provider_response_fst runs) q providers 0 hq
  · intro q e h1
    simp [WebInterface.get_provider_response, h1]
  · intro q v e h1 h2
    simp [WebInterface.get_provider_response, h1, h2]
  · intro q v w e h1 h2 h3
    simp [WebInterface.get_provider_response, h1, h2, h3]
  · intro runs' q h1 h2 h3
    rw [hcompare runs', hcompare runs]
    exact WebInterface.dictFind_slots_congr clock _ _
      (WebInterface.get_provider_response_fst runs')
      (WebInterface.get_provider_response_fst runs) q
      (congrArg Prod.snd
        (WebInterface.get_provider_response_congr runs runs' q h1 h2 h3))
      providers 0

/-- Witness for C6 at a concrete input: three distinct providers, p2's
probe failing, still yield exactly the three requested keys. -/
theorem C6_compare_fanout_witness :
    (WebInterface.compare_providers runs0 ["p1", "p2", "p3"]
        (fun i => i)).map Prod.fst = ["p1", "p2", "p3"] :=
  (C6_compare_fanout runs0 ["p1", "p2", "p3"] (fun i => i) (by decide)).1

/-! ## Claim C10 -/

/-- Claim C10: `get_session_history` returns a copy of the session's
conversation log: the registry is untouched and every previously stored
list object keeps its contents; the returned list object is a different
object from the session's stored one while holding the same contents; and
any mutation performed through the returned object — appending an entry,
deleting the last entry, or overwriting it wholesale — leaves the stored
log exactly as it was. -/
theorem C10_get_session_history_copy (o : RefModel.Orchestrator)
    (session_id : String) (s : RefModel.SessionRef)
    (o' : RefModel.Orchestrator) (r : Nat)
    (hs : dictFind o.sessions session_id = some s)
    (hvalid : s.historyRef < o.heap.cells.length)
    (hcall : RefModel.get_session_history o session_id =
      Except.ok (o', r)) :
    o'.sessions = o.sessions ∧
    (∀ i, i < o.heap.cells.length → o'.heap.get i = o.heap.get i) ∧
    r ≠ s.historyRef ∧
    o'.heap.get r = o.heap.get s.historyRef ∧
    (∀ v, (o'.heap.set r v).get s.historyRef =
      o.heap.get s.historyRef) ∧
    (∀ e, (o'.heap.appendEntry r e).get s.historyRef =
      o.heap.get s.historyRef) ∧
    (o'.heap.dropLast r).get s.historyRef = o.heap.get s.historyRef := by
  simp only [RefModel.get_session_history, hs, RefModel.Heap.alloc] at hcall
  injection hcall with hcall
  injection hcall with ho hr
  subst ho
  subst hr
  have hne : o.heap.cells.length ≠ s.historyRef := (Nat.ne_of_lt hvalid).symm
  have hset : ∀ v, (RefModel.Heap.set
      { cells := o.heap.cells ++ [o.heap.get s.historyRef] }
      o.heap.cells.length v).get s.historyRef =
      o.heap.get s.historyRef := by
    intro v
    simp only [RefModel.Heap.set, RefModel.Heap.get]
    rw [List.getD_eq_getElem?_getD, List.getElem?_set_ne hne,
      ← List.getD_eq_getElem?_getD, List.getD_append _ _ _ _ hvalid]
  refine ⟨rfl, ?_, hne, ?_, hset, fun e => hset _, hset _⟩
  · intro i hi
    simp only [RefModel.Heap.get]
    rw [List.getD_append _ _ _ _ hi]
  · simp only [RefModel.Heap.get]
    rw [List.getD_eq_getElem?_getD, List.getElem?_concat_length]
    rfl

/-- Witness for C10 at a concrete input: the returned reference differs
from the stored one and carries the same contents. -/
theorem C10_get_session_history_copy_witness :
    (1 : Nat) ≠ rSess0.historyRef ∧
    rOrch1.heap.get 1 = rOrch0.heap.get rSess0.historyRef := by
  obtain ⟨-, -, hne, hgetr, -, -, -⟩ :=
    C10_get_session_history_copy rOrch0 "sid-1" rSess0 rOrch1 1 rfl
      (by decide) rfl
  exact ⟨hne, hgetr⟩
